import Mathlib

/-!
Shallow embedding of the two Arduino sketches in
`src/Seperation/DRV8434S_Stepper_Demo_SPI.ino`:

* the SPI-control sketch (DRV8434S register control via the vendor driver
  object `sd`), and
* the STEP/DIR sketch (direct GPIO pulsing of STEP/DIR/ENABLE pins).

Machine integers are modelled as `Nat`/`Int` with explicit reduction
modulo `2^32` where the C code relies on 32-bit wraparound
(`unsigned long` arithmetic in the step timer, `atol` accumulation in
`String::toInt`).  `int` is modelled as a 32-bit signed integer.
Serial output and hardware side effects are modelled as an explicit list
of effects returned beside the updated state.
-/

/-- The set of characters accepted by C `isspace`, used by Arduino
`String::trim` and by `atol` when skipping leading whitespace. -/
def isSpaceChar (c : Char) : Bool :=
  c = ' ' || c = '\t' || c = '\n' || c = Char.ofNat 11 || c = Char.ofNat 12 || c = '\r'

/-- ASCII lowercasing of a single character (Arduino `String::toLowerCase`). -/
def lowerChar (c : Char) : Char :=
  if 'A' ≤ c ∧ c ≤ 'Z' then Char.ofNat (c.toNat + 32) else c

/-- Model of Arduino `String::toLowerCase` (in-place lowercasing). -/
def toLowerCase (s : String) : String :=
  String.mk (s.data.map lowerChar)

/-- Model of Arduino `String::trim`: remove leading and trailing
`isspace` characters. -/
def trimStr (s : String) : String :=
  String.mk (((s.data.dropWhile isSpaceChar).reverse.dropWhile isSpaceChar).reverse)

/-- The normalisation both sketches' `loop` applies to a received line
before dispatch: `command.trim(); command.toLowerCase();`. -/
def normalizeLine (s : String) : String :=
  toLowerCase (trimStr s)

/-- Model of Arduino `String::startsWith`. -/
def startsWith (p s : String) : Bool :=
  p.data.isPrefixOf s.data

/-- Model of Arduino `String::substring(from)` (from `from` to the end). -/
def substringFrom (s : String) (i : Nat) : String :=
  String.mk (s.data.drop i)

def isDigitChar (c : Char) : Bool :=
  '0' ≤ c ∧ c ≤ '9'

/-- Value of the maximal leading digit run of a character list. -/
def digitsVal (cs : List Char) : Nat :=
  (cs.takeWhile isDigitChar).foldl (fun a c => a * 10 + (c.toNat - 48)) 0

/-- Reduce an unbounded integer to the 32-bit two's-complement value a
32-bit `long` accumulation produces. -/
def wrap32 (v : Int) : Int :=
  let m := v % (4294967296 : Int)
  if m < 2147483648 then m else m - 4294967296

/-- Model of Arduino `String::toInt` (which calls `atol`): skip leading
whitespace, read an optional sign and a leading digit run, ignore the
rest; the accumulated `long` wraps at 32 bits. A string with no leading
digits parses to 0. -/
def toInt (s : String) : Int :=
  let cs := s.data.dropWhile isSpaceChar
  match cs with
  | '-' :: rest => wrap32 (-(digitsVal rest : Int))
  | '+' :: rest => wrap32 ((digitsVal rest : Int))
  | _ => wrap32 ((digitsVal cs : Int))

/-- Unsigned 32-bit subtraction `a - b`, as in the sketches'
`currentTime - lastStepTime` on `unsigned long`. -/
def elapsed32 (t last : Nat) : Nat :=
  (t % 4294967296 + 4294967296 - last % 4294967296) % 4294967296

/-! ## SPI-control sketch -/

/-- Global control state of the SPI sketch: `motorRunning`,
`motorDirection` (`uint8_t`, 0 = forward, 1 = reverse), `stepPeriodUs`
(`uint16_t`), `lastStepTime` (`unsigned long`). -/
structure SpiState where
  motorRunning : Bool
  motorDirection : Nat
  stepPeriodUs : Nat
  lastStepTime : Nat
deriving Repr, DecidableEq

/-- The C++ global initialisers of the SPI sketch's control variables. -/
def spiInitState : SpiState :=
  { motorRunning := false, motorDirection := 0, stepPeriodUs := 2000, lastStepTime := 0 }

/-- Observable effects of the SPI sketch: serial prints (one entry per
output line, dynamic parts composed in), driver-object calls, and the
three multi-line print helpers kept abstract. -/
inductive SpiOut where
  | print (s : String)
  | setDirection (d : Nat)
  | step
  | printStatus
  | printHelp
  | printDriverStatus
deriving Repr, DecidableEq

/-- The SPI sketch's unknown-command output. -/
def spiUnknownOut : List SpiOut :=
  [SpiOut.print "Unknown command. Type 'help' for commands."]

/-- Translation of `processCommand` of the SPI sketch (source lines
76–143), branch by branch. -/
def processCommandSpi (s : SpiState) (cmd : String) : SpiState × List SpiOut :=
  if cmd = "start" ∨ cmd = "s" then
    ({ s with motorRunning := true },
     [SpiOut.setDirection s.motorDirection,
      SpiOut.print "Motor STARTED",
      SpiOut.print ("Direction: " ++ (if s.motorDirection = 0 then "Forward" else "Reverse")),
      SpiOut.print ("Speed (period): " ++ toString s.stepPeriodUs ++ " us")])
  else if cmd = "stop" ∨ cmd = "x" then
    ({ s with motorRunning := false }, [SpiOut.print "Motor STOPPED"])
  else if cmd = "forward" ∨ cmd = "f" then
    ({ s with motorDirection := 0 },
     [SpiOut.setDirection 0, SpiOut.print "Direction set to FORWARD"] ++
       (if s.motorRunning then [SpiOut.print "(Change will take effect immediately)"] else []))
  else if cmd = "reverse" ∨ cmd = "r" then
    ({ s with motorDirection := 1 },
     [SpiOut.setDirection 1, SpiOut.print "Direction set to REVERSE"] ++
       (if s.motorRunning then [SpiOut.print "(Change will take effect immediately)"] else []))
  else if startsWith "speed " cmd then
    let newSpeed := toInt (substringFrom cmd 6)
    if 100 ≤ newSpeed ∧ newSpeed ≤ 50000 then
      ({ s with stepPeriodUs := newSpeed.toNat },
       [SpiOut.print ("Speed set to " ++ toString newSpeed.toNat ++ " us (lower = faster)")])
    else
      (s, [SpiOut.print "ERROR: Speed must be between 100 and 50000"])
  else if cmd = "status" ∨ cmd = "?" then
    (s, [SpiOut.printStatus])
  else if cmd = "help" ∨ cmd = "h" then
    (s, [SpiOut.printHelp])
  else if cmd = "fault" then
    (s, [SpiOut.printDriverStatus])
  else
    (s, spiUnknownOut)

/-- The command phase of the SPI sketch's `loop`: when a line is
available, it is trimmed, lowercased and dispatched. -/
def spiCommandPhase (inp : Option String) (s : SpiState) : SpiState × List SpiOut :=
  match inp with
  | some line => processCommandSpi s (normalizeLine line)
  | none => (s, [])

/-- The stepping phase of the SPI sketch's `loop` (source lines 64–73):
`sd.step()` is modelled by the returned flag. -/
def spiStepPhase (t : Nat) (s : SpiState) : SpiState × Bool :=
  if s.motorRunning then
    if s.stepPeriodUs ≤ elapsed32 t s.lastStepTime then
      ({ s with lastStepTime := t % 4294967296 }, true)
    else (s, false)
  else (s, false)

/-- One iteration of the SPI sketch's `loop`: optional serial input, then
the timed step check at time `t` (the `micros()` reading). -/
def spiLoopIter (inp : Option String) (t : Nat) (s : SpiState) :
    SpiState × List SpiOut × Bool :=
  let c := spiCommandPhase inp s
  let st := spiStepPhase t c.1
  (st.1, c.2, st.2)

/-- Run the SPI sketch's loop over a list of events (optional input line,
`micros()` reading); returns the final state and the number of steps
issued. -/
def spiRunSteps : SpiState → List (Option String × Nat) → SpiState × Nat
  | s, [] => (s, 0)
  | s, e :: evs =>
      let r := spiLoopIter e.1 e.2 s
      let rest := spiRunSteps r.1 evs
      (rest.1, (if r.2.2 then 1 else 0) + rest.2)

def spiRun (s : SpiState) (evs : List (Option String × Nat)) : SpiState :=
  (spiRunSteps s evs).1

/-! ## STEP/DIR sketch -/

/-- Global control state of the STEP/DIR sketch: the control variables
(`motorRunning`, `motorDirection` as `bool` with `false` = forward,
`stepPeriodUs`, `lastStepTime`, the unused `stepPinState`) together with
the levels of the three GPIO output pins (`true` = HIGH). -/
structure StepDirState where
  motorRunning : Bool
  motorDirection : Bool
  stepPeriodUs : Nat
  lastStepTime : Nat
  stepPinState : Bool
  stepPin : Bool
  dirPin : Bool
  enablePin : Bool
deriving Repr, DecidableEq

/-- The C++ global initialisers of the STEP/DIR sketch's variables, with
all pins LOW before `setup` configures them. -/
def stepDirInitState : StepDirState :=
  { motorRunning := false, motorDirection := false, stepPeriodUs := 2000,
    lastStepTime := 0, stepPinState := false,
    stepPin := false, dirPin := false, enablePin := false }

/-- The pin writes of the STEP/DIR sketch's `setup` (source lines
263–265): STEP LOW, DIR LOW, ENABLE HIGH. -/
def stepDirSetup (s : StepDirState) : StepDirState :=
  { s with stepPin := false, dirPin := false, enablePin := true }

/-- Serial output of the STEP/DIR sketch (pin writes are tracked in the
state instead). -/
inductive StepDirOut where
  | print (s : String)
  | printStatus
  | printHelp
deriving Repr, DecidableEq

/-- The STEP/DIR sketch's unknown-command output. -/
def stepDirUnknownOut : List StepDirOut :=
  [StepDirOut.print "Unknown command. Type 'help' for commands."]

/-- Translation of `processCommand` of the STEP/DIR sketch (source
lines 304–379), branch by branch. -/
def processCommandStepDir (s : StepDirState) (cmd : String) :
    StepDirState × List StepDirOut :=
  if cmd = "start" ∨ cmd = "s" then
    ({ s with motorRunning := true, dirPin := s.motorDirection },
     [StepDirOut.print "Motor STARTED",
      StepDirOut.print ("Direction: " ++ (if s.motorDirection then "Reverse" else "Forward")),
      StepDirOut.print ("Speed (period): " ++ toString s.stepPeriodUs ++ " us")])
  else if cmd = "stop" ∨ cmd = "x" then
    ({ s with motorRunning := false, stepPin := false },
     [StepDirOut.print "Motor STOPPED"])
  else if cmd = "forward" ∨ cmd = "f" then
    ({ s with motorDirection := false, dirPin := false },
     [StepDirOut.print "Direction set to FORWARD"] ++
       (if s.motorRunning then [StepDirOut.print "(Change will take effect immediately)"] else []))
  else if cmd = "reverse" ∨ cmd = "r" then
    ({ s with motorDirection := true, dirPin := true },
     [StepDirOut.print "Direction set to REVERSE"] ++
       (if s.motorRunning then [StepDirOut.print "(Change will take effect immediately)"] else []))
  else if startsWith "speed " cmd then
    let newSpeed := toInt (substringFrom cmd 6)
    if 100 ≤ newSpeed ∧ newSpeed ≤ 50000 then
      ({ s with stepPeriodUs := newSpeed.toNat },
       [StepDirOut.print ("Speed set to " ++ toString newSpeed.toNat ++ " us (lower = faster)")])
    else
      (s, [StepDirOut.print "ERROR: Speed must be between 100 and 50000"])
  else if cmd = "status" ∨ cmd = "?" then
    (s, [StepDirOut.printStatus])
  else if cmd = "help" ∨ cmd = "h" then
    (s, [StepDirOut.printHelp])
  else if cmd = "enable" then
    ({ s with enablePin := true }, [StepDirOut.print "Driver ENABLED"])
  else if cmd = "disable" then
    ({ s with enablePin := false, motorRunning := false },
     [StepDirOut.print "Driver DISABLED"])
  else
    (s, stepDirUnknownOut)

/-- The command phase of the STEP/DIR sketch's `loop`. -/
def stepDirCommandPhase (inp : Option String) (s : StepDirState) :
    StepDirState × List StepDirOut :=
  match inp with
  | some line => processCommandStepDir s (normalizeLine line)
  | none => (s, [])

/-- The stepping phase of the STEP/DIR sketch's `loop` (source lines
288–301): the STEP pin is pulsed HIGH then LOW, so it ends LOW; the
returned flag records that a pulse was issued. -/
def stepDirStepPhase (t : Nat) (s : StepDirState) : StepDirState × Bool :=
  if s.motorRunning then
    if s.stepPeriodUs ≤ elapsed32 t s.lastStepTime then
      ({ s with stepPin := false, lastStepTime := t % 4294967296 }, true)
    else (s, false)
  else (s, false)

/-- One iteration of the STEP/DIR sketch's `loop`. -/
def stepDirLoopIter (inp : Option String) (t : Nat) (s : StepDirState) :
    StepDirState × List StepDirOut × Bool :=
  let c := stepDirCommandPhase inp s
  let st := stepDirStepPhase t c.1
  (st.1, c.2, st.2)

/-- Run the STEP/DIR sketch's loop over a list of events; returns the
final state and the number of step pulses issued. -/
def stepDirRunSteps : StepDirState → List (Option String × Nat) → StepDirState × Nat
  | s, [] => (s, 0)
  | s, e :: evs =>
      let r := stepDirLoopIter e.1 e.2 s
      let rest := stepDirRunSteps r.1 evs
      (rest.1, (if r.2.2 then 1 else 0) + rest.2)

def stepDirRun (s : StepDirState) (evs : List (Option String × Nat)) : StepDirState :=
  (stepDirRunSteps s evs).1

/-! ## Shared abstractions used by the claims -/

/-- The abstract control state shared by the two sketches:
whether the motor runs, whether the direction is reverse, and the step
period. -/
structure ControlState where
  running : Bool
  reverse : Bool
  stepPeriodUs : Nat
deriving Repr, DecidableEq

/-- Abstraction of the SPI sketch's state (the sketch prints "Forward"
exactly when `motorDirection == 0`). -/
def absSpi (s : SpiState) : ControlState :=
  { running := s.motorRunning, reverse := s.motorDirection ≠ 0,
    stepPeriodUs := s.stepPeriodUs }

/-- Abstraction of the STEP/DIR sketch's state. -/
def absStepDir (s : StepDirState) : ControlState :=
  { running := s.motorRunning, reverse := s.motorDirection,
    stepPeriodUs := s.stepPeriodUs }

/-- The commands both sketches dispatch by exact whole-line equality. -/
def sharedExactWords : List String :=
  ["start", "s", "stop", "x", "forward", "f", "reverse", "r", "status", "?", "help", "h"]

/-- The speed value a command line is accepted with, if any: the line
starts with `"speed "` and the rest parses to an integer in
`[100, 50000]` (the guard of the speed branch of both sketches). -/
def acceptedSpeed (cmd : String) : Option Nat :=
  if startsWith "speed " cmd then
    let n := toInt (substringFrom cmd 6)
    if 100 ≤ n ∧ n ≤ 50000 then some n.toNat else none
  else none

/-- The most recently accepted speed over a list of loop events, if any
input line was an accepted speed command. -/
def lastAcceptedSpeed : List (Option String × Nat) → Option Nat
  | [] => none
  | e :: evs =>
      (lastAcceptedSpeed evs).elim
        (match e.1 with
         | some line => acceptedSpeed (normalizeLine line)
         | none => none)
        (fun n => some n)

/-- The SPI sketch's `setup` makes driver calls only; it writes none of
the four control variables, so the post-`setup` control state is the
global-initialiser state. -/
def spiSetupState : SpiState := spiInitState

/-- An event whose input line (if any) does not normalise to a start
command (`"start"` or `"s"`). -/
def noStartEvent (e : Option String × Nat) : Bool :=
  match e.1 with
  | some line => !(normalizeLine line == "start" || normalizeLine line == "s")
  | none => true

/-! ## Helper lemmas -/

theorem speed_msg_ne_unknown (x : String) :
    ¬("Speed set to " ++ x ++ " us (lower = faster)" =
      "Unknown command. Type 'help' for commands.") := by
  simp [String.ext_iff, String.data_append, List.cons_append]

/-- A line is answered with the SPI sketch's unknown-command message
exactly when it is none of the exact command words and does not start
with `"speed "`. -/
theorem spiUnknown_iff (s : SpiState) (cmd : String) :
    (processCommandSpi s cmd).2 = spiUnknownOut ↔
      (cmd ∉ sharedExactWords ++ ["fault"] ∧ startsWith "speed " cmd = false) := by
  unfold processCommandSpi
  split_ifs <;>
    simp_all only [sharedExactWords, spiUnknownOut, List.cons_append, List.nil_append,
      List.mem_cons, List.not_mem_nil, or_false, not_or, List.cons.injEq, SpiOut.print.injEq,
      and_true, Bool.not_eq_true, String.reduceEq, not_false_eq_true, and_false, false_and,
      iff_false, not_and, Bool.not_eq_false, and_self, iff_true, true_and, false_iff,
      List.ne_cons_self, reduceCtorEq] <;>
    first
      | tauto
      | (split_ifs at * <;> simp_all [speed_msg_ne_unknown])

/-- A line is answered with the STEP/DIR sketch's unknown-command message
exactly when it is none of its exact command words and does not start
with `"speed "`. -/
theorem stepDirUnknown_iff (s : StepDirState) (cmd : String) :
    (processCommandStepDir s cmd).2 = stepDirUnknownOut ↔
      (cmd ∉ sharedExactWords ++ ["enable", "disable"] ∧ startsWith "speed " cmd = false) := by
  unfold processCommandStepDir
  split_ifs <;>
    simp_all only [sharedExactWords, stepDirUnknownOut, List.cons_append, List.nil_append,
      List.mem_cons, List.not_mem_nil, or_false, not_or, List.cons.injEq, StepDirOut.print.injEq,
      and_true, Bool.not_eq_true, String.reduceEq, not_false_eq_true, and_false, false_and,
      iff_false, not_and, Bool.not_eq_false, and_self, iff_true, true_and, false_iff,
      List.ne_cons_self, reduceCtorEq] <;>
    first
      | tauto
      | (split_ifs at * <;> simp_all [speed_msg_ne_unknown])

theorem append_speed_starts (arg : String) :
    startsWith "speed " ("speed " ++ arg) = true := by
  simp [startsWith, String.data_append, List.isPrefixOf_iff_prefix]

theorem append_speed_substring (arg : String) :
    substringFrom ("speed " ++ arg) 6 = arg := by
  simp [substringFrom, String.data_append]

/-- Evaluation of the SPI sketch's speed branch on a line
`"speed " ++ arg`. -/
theorem processCommandSpi_append_speed (s : SpiState) (arg : String) :
    processCommandSpi s ("speed " ++ arg) =
      (if 100 ≤ toInt arg ∧ toInt arg ≤ 50000 then
        ({ s with stepPeriodUs := (toInt arg).toNat },
         [SpiOut.print ("Speed set to " ++ toString (toInt arg).toNat ++ " us (lower = faster)")])
       else (s, [SpiOut.print "ERROR: Speed must be between 100 and 50000"])) := by
  have h1 : ¬("speed " ++ arg = "start" ∨ "speed " ++ arg = "s") := by
    simp [String.ext_iff, String.data_append]
  have h2 : ¬("speed " ++ arg = "stop" ∨ "speed " ++ arg = "x") := by
    simp [String.ext_iff, String.data_append]
  have h3 : ¬("speed " ++ arg = "forward" ∨ "speed " ++ arg = "f") := by
    simp [String.ext_iff, String.data_append]
  have h4 : ¬("speed " ++ arg = "reverse" ∨ "speed " ++ arg = "r") := by
    simp [String.ext_iff, String.data_append]
  unfold processCommandSpi
  rw [if_neg h1, if_neg h2, if_neg h3, if_neg h4, if_pos (append_speed_starts arg),
    append_speed_substring]

/-- Evaluation of the STEP/DIR sketch's speed branch on a line
`"speed " ++ arg`. -/
theorem processCommandStepDir_append_speed (s : StepDirState) (arg : String) :
    processCommandStepDir s ("speed " ++ arg) =
      (if 100 ≤ toInt arg ∧ toInt arg ≤ 50000 then
        ({ s with stepPeriodUs := (toInt arg).toNat },
         [StepDirOut.print ("Speed set to " ++ toString (toInt arg).toNat ++ " us (lower = faster)")])
       else (s, [StepDirOut.print "ERROR: Speed must be between 100 and 50000"])) := by
  have h1 : ¬("speed " ++ arg = "start" ∨ "speed " ++ arg = "s") := by
    simp [String.ext_iff, String.data_append]
  have h2 : ¬("speed " ++ arg = "stop" ∨ "speed " ++ arg = "x") := by
    simp [String.ext_iff, String.data_append]
  have h3 : ¬("speed " ++ arg = "forward" ∨ "speed " ++ arg = "f") := by
    simp [String.ext_iff, String.data_append]
  have h4 : ¬("speed " ++ arg = "reverse" ∨ "speed " ++ arg = "r") := by
    simp [String.ext_iff, String.data_append]
  unfold processCommandStepDir
  rw [if_neg h1, if_neg h2, if_neg h3, if_neg h4, if_pos (append_speed_starts arg),
    append_speed_substring]

/-- A line starting with `"speed "` is `"speed "` followed by the rest. -/
theorem startsWith_speed_decomp (cmd : String) (h : startsWith "speed " cmd = true) :
    ∃ arg, cmd = "speed " ++ arg := by
  unfold startsWith at h
  rw [ List.isPrefixOf_iff_prefix] at h
  obtain ⟨t, ht⟩ := h
  exact ⟨String.mk t, by apply String.ext; simp [String.data_append, ← ht]⟩

theorem acceptedSpeed_append (arg : String) :
    acceptedSpeed ("speed " ++ arg) =
      (if 100 ≤ toInt arg ∧ toInt arg ≤ 50000 then some (toInt arg).toNat else none) := by
  unfold acceptedSpeed
  rw [if_pos (append_speed_starts arg), append_speed_substring]

/-- Per-command effect on `stepPeriodUs` in the SPI sketch: exactly the
accepted speed, if any; unchanged otherwise. -/
theorem spi_stepPeriod_processCommand (s : SpiState) (cmd : String) :
    (processCommandSpi s cmd).1.stepPeriodUs = (acceptedSpeed cmd).getD s.stepPeriodUs := by
  cases hsp : startsWith "speed " cmd with
  | true =>
      obtain ⟨arg, rfl⟩ := startsWith_speed_decomp cmd hsp
      rw [processCommandSpi_append_speed, acceptedSpeed_append]
      split_ifs <;> simp
  | false =>
      unfold processCommandSpi acceptedSpeed
      split_ifs <;> simp_all

/-- Per-command effect on `stepPeriodUs` in the STEP/DIR sketch. -/
theorem stepDir_stepPeriod_processCommand (s : StepDirState) (cmd : String) :
    (processCommandStepDir s cmd).1.stepPeriodUs = (acceptedSpeed cmd).getD s.stepPeriodUs := by
  cases hsp : startsWith "speed " cmd with
  | true =>
      obtain ⟨arg, rfl⟩ := startsWith_speed_decomp cmd hsp
      rw [processCommandStepDir_append_speed, acceptedSpeed_append]
      split_ifs <;> simp
  | false =>
      unfold processCommandStepDir acceptedSpeed
      split_ifs <;> simp_all

theorem spi_stepPhase_stepPeriod (t : Nat) (s : SpiState) :
    (spiStepPhase t s).1.stepPeriodUs = s.stepPeriodUs := by
  unfold spiStepPhase; split_ifs <;> rfl

theorem stepDir_stepPhase_stepPeriod (t : Nat) (s : StepDirState) :
    (stepDirStepPhase t s).1.stepPeriodUs = s.stepPeriodUs := by
  unfold stepDirStepPhase; split_ifs <;> rfl

theorem spi_stepPhase_not_running (t : Nat) (s : SpiState)
    (hs : s.motorRunning = false) : spiStepPhase t s = (s, false) := by
  unfold spiStepPhase; rw [hs]; simp

theorem stepDir_stepPhase_not_running (t : Nat) (s : StepDirState)
    (hs : s.motorRunning = false) : stepDirStepPhase t s = (s, false) := by
  unfold stepDirStepPhase; rw [hs]; simp

/-- No SPI-sketch command other than `start`/`s` can make the motor run. -/
theorem spi_motorRunning_preserved (s : SpiState) (cmd : String)
    (hs : s.motorRunning = false) (h1 : cmd ≠ "start") (h2 : cmd ≠ "s") :
    (processCommandSpi s cmd).1.motorRunning = false := by
  unfold processCommandSpi
  split_ifs <;> (try simp_all) <;> (try split_ifs) <;> simp_all

/-- No STEP/DIR-sketch command other than `start`/`s` can make the
motor run. -/
theorem stepDir_motorRunning_preserved (s : StepDirState) (cmd : String)
    (hs : s.motorRunning = false) (h1 : cmd ≠ "start") (h2 : cmd ≠ "s") :
    (processCommandStepDir s cmd).1.motorRunning = false := by
  unfold processCommandStepDir
  split_ifs <;> (try simp_all) <;> (try split_ifs) <;> simp_all

/-- Over any event trace whose input lines never normalise to a start
command, the SPI sketch's loop, begun with the motor stopped, issues no
step and ends with the motor still stopped. -/
theorem spiRunSteps_stopped (evs : List (Option String × Nat)) (s : SpiState)
    (hs : s.motorRunning = false)
    (h : ∀ e ∈ evs, ∀ line, e.1 = some line →
      normalizeLine line ≠ "start" ∧ normalizeLine line ≠ "s") :
    (spiRunSteps s evs).2 = 0 ∧ (spiRunSteps s evs).1.motorRunning = false := by
  induction evs generalizing s with
  | nil => simpa [spiRunSteps] using hs
  | cons e evs ih =>
      have hc : ((spiCommandPhase e.1 s).1).motorRunning = false := by
        match he : e.1 with
        | none => simpa [spiCommandPhase] using hs
        | some line =>
            have := h e (List.mem_cons_self e evs) line he
            simpa [spiCommandPhase] using
              spi_motorRunning_preserved s (normalizeLine line) hs this.1 this.2
      have hstep := spi_stepPhase_not_running e.2 _ hc
      have hiter : (spiLoopIter e.1 e.2 s).1 = (spiCommandPhase e.1 s).1 := by
        simp [spiLoopIter, hstep]
      have hrest := ih ((spiLoopIter e.1 e.2 s).1) (by rw [hiter]; exact hc)
        (fun e' he' line hl => h e' (List.mem_cons_of_mem e he') line hl)
      constructor
      · simp only [spiRunSteps]
        rw [show (spiLoopIter e.1 e.2 s).2.2 = false by simp [spiLoopIter, hstep]]
        simpa using hrest.1
      · simp only [spiRunSteps]
        exact hrest.2

/-- Over any event trace whose input lines never normalise to a start
command, the STEP/DIR sketch's loop, begun with the motor stopped,
issues no step pulse and ends with the motor still stopped. -/
theorem stepDirRunSteps_stopped (evs : List (Option String × Nat)) (s : StepDirState)
    (hs : s.motorRunning = false)
    (h : ∀ e ∈ evs, ∀ line, e.1 = some line →
      normalizeLine line ≠ "start" ∧ normalizeLine line ≠ "s") :
    (stepDirRunSteps s evs).2 = 0 ∧ (stepDirRunSteps s evs).1.motorRunning = false := by
  induction evs generalizing s with
  | nil => simpa [stepDirRunSteps] using hs
  | cons e evs ih =>
      have hc : ((stepDirCommandPhase e.1 s).1).motorRunning = false := by
        match he : e.1 with
        | none => simpa [stepDirCommandPhase] using hs
        | some line =>
            have := h e (List.mem_cons_self e evs) line he
            simpa [stepDirCommandPhase] using
              stepDir_motorRunning_preserved s (normalizeLine line) hs this.1 this.2
      have hstep := stepDir_stepPhase_not_running e.2 _ hc
      have hiter : (stepDirLoopIter e.1 e.2 s).1 = (stepDirCommandPhase e.1 s).1 := by
        simp [stepDirLoopIter, hstep]
      have hrest := ih ((stepDirLoopIter e.1 e.2 s).1) (by rw [hiter]; exact hc)
        (fun e' he' line hl => h e' (List.mem_cons_of_mem e he') line hl)
      constructor
      · simp only [stepDirRunSteps]
        rw [show (stepDirLoopIter e.1 e.2 s).2.2 = false by simp [stepDirLoopIter, hstep]]
        simpa using hrest.1
      · simp only [stepDirRunSteps]
        exact hrest.2

/-- The final `stepPeriodUs` of an SPI-sketch run is the most recently
accepted speed, or the starting value when no speed was accepted. -/
theorem spiRun_stepPeriod (evs : List (Option String × Nat)) (s : SpiState) :
    (spiRun s evs).stepPeriodUs = (lastAcceptedSpeed evs).getD s.stepPeriodUs := by
  induction evs generalizing s with
  | nil => rfl
  | cons e evs ih =>
      have hcmd : ((spiLoopIter e.1 e.2 s).1).stepPeriodUs =
          ((match e.1 with
            | some line => acceptedSpeed (normalizeLine line)
            | none => none) : Option Nat).getD s.stepPeriodUs := by
        match e.1 with
        | none => simp [spiLoopIter, spiCommandPhase, spi_stepPhase_stepPeriod]
        | some line =>
            simp [spiLoopIter, spiCommandPhase, spi_stepPhase_stepPeriod,
              spi_stepPeriod_processCommand]
      show (spiRun (spiLoopIter e.1 e.2 s).1 evs).stepPeriodUs = _
      rw [ih, hcmd]
      simp only [lastAcceptedSpeed]
      cases hle : lastAcceptedSpeed evs <;> simp [hle]

/-- The final `stepPeriodUs` of a STEP/DIR-sketch run is the most
recently accepted speed, or the starting value when no speed was
accepted. -/
theorem stepDirRun_stepPeriod (evs : List (Option String × Nat)) (s : StepDirState) :
    (stepDirRun s evs).stepPeriodUs = (lastAcceptedSpeed evs).getD s.stepPeriodUs := by
  induction evs generalizing s with
  | nil => rfl
  | cons e evs ih =>
      have hcmd : ((stepDirLoopIter e.1 e.2 s).1).stepPeriodUs =
          ((match e.1 with
            | some line => acceptedSpeed (normalizeLine line)
            | none => none) : Option Nat).getD s.stepPeriodUs := by
        match e.1 with
        | none => simp [stepDirLoopIter, stepDirCommandPhase, stepDir_stepPhase_stepPeriod]
        | some line =>
            simp [stepDirLoopIter, stepDirCommandPhase, stepDir_stepPhase_stepPeriod,
              stepDir_stepPeriod_processCommand]
      show (stepDirRun (stepDirLoopIter e.1 e.2 s).1 evs).stepPeriodUs = _
      rw [ih, hcmd]
      simp only [lastAcceptedSpeed]
      cases hle : lastAcceptedSpeed evs <;> simp [hle]

/-- Behaviour of a step phase in the SPI sketch: a step is issued
exactly when the motor runs and the 32-bit elapsed time has reached the
step period, and then `lastStepTime` becomes the current time. -/
theorem spiStepPhase_spec (t : Nat) (s : SpiState) :
    (spiStepPhase t s).2 =
      (s.motorRunning && decide (s.stepPeriodUs ≤ elapsed32 t s.lastStepTime)) ∧
    (spiStepPhase t s).1.lastStepTime =
      (if s.motorRunning = true ∧ s.stepPeriodUs ≤ elapsed32 t s.lastStepTime
        then t % 4294967296 else s.lastStepTime) := by
  unfold spiStepPhase
  split_ifs <;> simp_all

/-- Behaviour of a step phase in the STEP/DIR sketch. -/
theorem stepDirStepPhase_spec (t : Nat) (s : StepDirState) :
    (stepDirStepPhase t s).2 =
      (s.motorRunning && decide (s.stepPeriodUs ≤ elapsed32 t s.lastStepTime)) ∧
    (stepDirStepPhase t s).1.lastStepTime =
      (if s.motorRunning = true ∧ s.stepPeriodUs ≤ elapsed32 t s.lastStepTime
        then t % 4294967296 else s.lastStepTime) := by
  unfold stepDirStepPhase
  split_ifs <;> simp_all

/-! ## Claims -/

/-- C1 counterexample: the claim says both sketches dispatch the line
"fault" to a fault-reporting handler, but in the STEP/DIR sketch
"fault" falls through to the unknown-command branch (the SPI sketch
does dispatch it to `printDriverStatus`). -/
theorem claim_C1_counterexample :
    (processCommandStepDir (stepDirSetup stepDirInitState) "fault").2 = stepDirUnknownOut ∧
    (processCommandSpi spiInitState "fault").2 = [SpiOut.printDriverStatus] := by
  decide

/-- C1 (amended): both sketches recognise start, stop, forward, reverse,
speed and status; the SPI sketch dispatches "fault" to the
fault-reporting handler, while in the STEP/DIR sketch "fault" falls
through to the unknown-command branch. -/
theorem claim_C1 : ∀ (s1 : SpiState) (s2 : StepDirState),
    (processCommandSpi s1 "fault").2 = [SpiOut.printDriverStatus] ∧
    (processCommandStepDir s2 "fault").2 = stepDirUnknownOut ∧
    ((processCommandSpi s1 "start").2 ≠ spiUnknownOut ∧
      (processCommandStepDir s2 "start").2 ≠ stepDirUnknownOut) ∧
    ((processCommandSpi s1 "stop").2 ≠ spiUnknownOut ∧
      (processCommandStepDir s2 "stop").2 ≠ stepDirUnknownOut) ∧
    ((processCommandSpi s1 "forward").2 ≠ spiUnknownOut ∧
      (processCommandStepDir s2 "forward").2 ≠ stepDirUnknownOut) ∧
    ((processCommandSpi s1 "reverse").2 ≠ spiUnknownOut ∧
      (processCommandStepDir s2 "reverse").2 ≠ stepDirUnknownOut) ∧
    ((processCommandSpi s1 "speed 1000").2 ≠ spiUnknownOut ∧
      (processCommandStepDir s2 "speed 1000").2 ≠ stepDirUnknownOut) ∧
    ((processCommandSpi s1 "status").2 ≠ spiUnknownOut ∧
      (processCommandStepDir s2 "status").2 ≠ stepDirUnknownOut) :=
  fun s1 s2 =>
    ⟨rfl, rfl,
     ⟨fun h => absurd ((spiUnknown_iff s1 "start").mp h) (by decide),
      fun h => absurd ((stepDirUnknown_iff s2 "start").mp h) (by decide)⟩,
     ⟨fun h => absurd ((spiUnknown_iff s1 "stop").mp h) (by decide),
      fun h => absurd ((stepDirUnknown_iff s2 "stop").mp h) (by decide)⟩,
     ⟨fun h => absurd ((spiUnknown_iff s1 "forward").mp h) (by decide),
      fun h => absurd ((stepDirUnknown_iff s2 "forward").mp h) (by decide)⟩,
     ⟨fun h => absurd ((spiUnknown_iff s1 "reverse").mp h) (by decide),
      fun h => absurd ((stepDirUnknown_iff s2 "reverse").mp h) (by decide)⟩,
     ⟨fun h => absurd ((spiUnknown_iff s1 "speed 1000").mp h) (by decide),
      fun h => absurd ((stepDirUnknown_iff s2 "speed 1000").mp h) (by decide)⟩,
     ⟨fun h => absurd ((spiUnknown_iff s1 "status").mp h) (by decide),
      fun h => absurd ((stepDirUnknown_iff s2 "status").mp h) (by decide)⟩⟩

theorem claim_C1_witness :
    (processCommandSpi spiInitState "fault").2 = [SpiOut.printDriverStatus] ∧
    (processCommandStepDir (stepDirSetup stepDirInitState) "fault").2 = stepDirUnknownOut :=
  ⟨(claim_C1 spiInitState (stepDirSetup stepDirInitState)).1,
   (claim_C1 spiInitState (stepDirSetup stepDirInitState)).2.1⟩

/-- C2 counterexample: the line "speed 500abc" equals none of the fixed
command words of either sketch, yet both sketches dispatch it to the
speed command — selected by the mere prefix "speed " — and accept it,
setting the step period to 500. -/
theorem claim_C2_counterexample :
    "speed 500abc" ∉ sharedExactWords ++ ["fault"] ∧
    "speed 500abc" ∉ sharedExactWords ++ ["enable", "disable"] ∧
    (processCommandSpi spiInitState "speed 500abc").1.stepPeriodUs = 500 ∧
    (processCommandSpi spiInitState "speed 500abc").2 ≠ spiUnknownOut ∧
    (processCommandStepDir (stepDirSetup stepDirInitState) "speed 500abc").1.stepPeriodUs = 500 ∧
    (processCommandStepDir (stepDirSetup stepDirInitState) "speed 500abc").2 ≠ stepDirUnknownOut := by
  decide

/-- C2 (amended): in both sketches every command except speed is
dispatched by exact whole-line equality with a fixed command word, and
the speed command is selected exactly when the line merely starts with
"speed ": a line reaches a recognised branch iff it is one of the exact
words or has the "speed " prefix. -/
theorem claim_C2 : ∀ (cmd : String) (s1 : SpiState) (s2 : StepDirState),
    ((processCommandSpi s1 cmd).2 = spiUnknownOut ↔
      (cmd ∉ sharedExactWords ++ ["fault"] ∧ startsWith "speed " cmd = false)) ∧
    ((processCommandStepDir s2 cmd).2 = stepDirUnknownOut ↔
      (cmd ∉ sharedExactWords ++ ["enable", "disable"] ∧ startsWith "speed " cmd = false)) :=
  fun cmd s1 s2 => ⟨spiUnknown_iff s1 cmd, stepDirUnknown_iff s2 cmd⟩

theorem claim_C2_witness :
    (processCommandSpi spiInitState "hello").2 = spiUnknownOut ∧
    (processCommandStepDir (stepDirSetup stepDirInitState) "hello").2 = stepDirUnknownOut :=
  ⟨(claim_C2 "hello" spiInitState (stepDirSetup stepDirInitState)).1.mpr (by decide),
   (claim_C2 "hello" spiInitState (stepDirSetup stepDirInitState)).2.mpr (by decide)⟩

/-- C3: on every command line that is not one of the sketch-specific
commands ("fault", "enable", "disable"), the two sketches make the same
update to the abstract control state (running, direction,
step period). -/
theorem claim_C3 : ∀ (cmd : String) (s1 : SpiState) (s2 : StepDirState),
    absSpi s1 = absStepDir s2 →
    cmd ≠ "fault" → cmd ≠ "enable" → cmd ≠ "disable" →
    absSpi (processCommandSpi s1 cmd).1 = absStepDir (processCommandStepDir s2 cmd).1 := by
  intro cmd s1 s2 habs h1 h2 h3
  obtain ⟨hr, hd, hp⟩ := ControlState.mk.injEq .. |>.mp habs
  unfold processCommandSpi processCommandStepDir
  split_ifs <;> simp_all [absSpi, absStepDir] <;> split_ifs <;> simp_all

theorem claim_C3_witness :
    absSpi (processCommandSpi spiInitState "reverse").1 =
      absStepDir (processCommandStepDir (stepDirSetup stepDirInitState) "reverse").1 :=
  claim_C3 "reverse" spiInitState (stepDirSetup stepDirInitState)
    (by decide) (by decide) (by decide) (by decide)

/-- C4: in each loop iteration a step is issued iff, after the command
phase, the motor is running and the 32-bit elapsed time since
`lastStepTime` has reached `stepPeriodUs`; exactly then `lastStepTime`
is set to the current time. -/
theorem claim_C4 : ∀ (inp : Option String) (t : Nat) (s1 : SpiState) (s2 : StepDirState),
    ((spiLoopIter inp t s1).2.2 =
      ((spiCommandPhase inp s1).1.motorRunning &&
        decide ((spiCommandPhase inp s1).1.stepPeriodUs ≤
          elapsed32 t (spiCommandPhase inp s1).1.lastStepTime))) ∧
    ((spiLoopIter inp t s1).1.lastStepTime =
      (if (spiCommandPhase inp s1).1.motorRunning = true ∧
          (spiCommandPhase inp s1).1.stepPeriodUs ≤
            elapsed32 t (spiCommandPhase inp s1).1.lastStepTime
        then t % 4294967296 else (spiCommandPhase inp s1).1.lastStepTime)) ∧
    ((stepDirLoopIter inp t s2).2.2 =
      ((stepDirCommandPhase inp s2).1.motorRunning &&
        decide ((stepDirCommandPhase inp s2).1.stepPeriodUs ≤
          elapsed32 t (stepDirCommandPhase inp s2).1.lastStepTime))) ∧
    ((stepDirLoopIter inp t s2).1.lastStepTime =
      (if (stepDirCommandPhase inp s2).1.motorRunning = true ∧
          (stepDirCommandPhase inp s2).1.stepPeriodUs ≤
            elapsed32 t (stepDirCommandPhase inp s2).1.lastStepTime
        then t % 4294967296 else (stepDirCommandPhase inp s2).1.lastStepTime)) :=
  fun inp t s1 s2 =>
    ⟨(spiStepPhase_spec t (spiCommandPhase inp s1).1).1,
     (spiStepPhase_spec t (spiCommandPhase inp s1).1).2,
     (stepDirStepPhase_spec t (stepDirCommandPhase inp s2).1).1,
     (stepDirStepPhase_spec t (stepDirCommandPhase inp s2).1).2⟩


/-- C5: a stop command ("stop" or "x") makes `motorRunning` false in
both sketches; the step phase never issues a step from a state with
`motorRunning` false; and over any trace whose lines never normalise to
a start command ("start" or "s"), a stopped sketch issues no step and
stays stopped. -/
theorem claim_C5 :
    (∀ (s : SpiState), (processCommandSpi s "stop").1.motorRunning = false ∧
      (processCommandSpi s "x").1.motorRunning = false) ∧
    (∀ (s : StepDirState), (processCommandStepDir s "stop").1.motorRunning = false ∧
      (processCommandStepDir s "x").1.motorRunning = false) ∧
    (∀ (t : Nat) (s : SpiState), s.motorRunning = false → spiStepPhase t s = (s, false)) ∧
    (∀ (t : Nat) (s : StepDirState), s.motorRunning = false → stepDirStepPhase t s = (s, false)) ∧
    (∀ (evs : List (Option String × Nat)) (s : SpiState),
      s.motorRunning = false → evs.all noStartEvent = true →
      (spiRunSteps s evs).2 = 0 ∧ (spiRunSteps s evs).1.motorRunning = false) ∧
    (∀ (evs : List (Option String × Nat)) (s : StepDirState),
      s.motorRunning = false → evs.all noStartEvent = true →
      (stepDirRunSteps s evs).2 = 0 ∧ (stepDirRunSteps s evs).1.motorRunning = false) := by
  have hconv : ∀ (evs : List (Option String × Nat)), evs.all noStartEvent = true →
      ∀ e ∈ evs, ∀ line, e.1 = some line →
        normalizeLine line ≠ "start" ∧ normalizeLine line ≠ "s" := by
    intro evs h e he line hl
    have := List.all_eq_true.mp h e he
    rw [noStartEvent, hl] at this
    simpa using this
  exact ⟨fun s => ⟨rfl, rfl⟩,
    fun s => ⟨rfl, rfl⟩,
    spi_stepPhase_not_running,
    stepDir_stepPhase_not_running,
    fun evs s hs h => spiRunSteps_stopped evs s hs (hconv evs h),
    fun evs s hs h => stepDirRunSteps_stopped evs s hs (hconv evs h)⟩

theorem claim_C5_witness :
    (processCommandSpi spiInitState "stop").1.motorRunning = false ∧
    spiStepPhase 999999 (processCommandSpi spiInitState "stop").1 =
      ((processCommandSpi spiInitState "stop").1, false) ∧
    (spiRunSteps (processCommandSpi spiInitState "stop").1
      [(some "status", 5000), (none, 9000), (some "reverse", 12000)]).2 = 0 ∧
    (stepDirRunSteps (processCommandStepDir (stepDirSetup stepDirInitState) "x").1
      [(some "forward", 7000), (none, 8000)]).2 = 0 :=
  ⟨(claim_C5.1 spiInitState).1,
   claim_C5.2.2.1 999999 _ (by decide),
   (claim_C5.2.2.2.2.1 _ _ (by decide) (by decide)).1,
   (claim_C5.2.2.2.2.2 _ _ (by decide) (by decide)).1⟩

/-- C6: there is no acceleration profile: starting from the initial
state (step period 2000), after any event trace the step period equals
the value of the most recently accepted speed command, or 2000 when no
speed command was accepted; nothing else ever modifies it. -/
theorem claim_C6 : ∀ (evs : List (Option String × Nat)),
    (spiRun spiInitState evs).stepPeriodUs = (lastAcceptedSpeed evs).getD 2000 ∧
    (stepDirRun (stepDirSetup stepDirInitState) evs).stepPeriodUs =
      (lastAcceptedSpeed evs).getD 2000 :=
  fun evs => ⟨spiRun_stepPeriod evs spiInitState,
    stepDirRun_stepPeriod evs (stepDirSetup stepDirInitState)⟩

/-- C7: no persistent state: each startup begins from the fixed control
state motorRunning = false, direction = forward, stepPeriodUs = 2000,
lastStepTime = 0 (the SPI sketch's setup writes none of these; the
STEP/DIR sketch's setup only configures pins). -/
theorem claim_C7 :
    spiSetupState.motorRunning = false ∧ spiSetupState.motorDirection = 0 ∧
    spiSetupState.stepPeriodUs = 2000 ∧ spiSetupState.lastStepTime = 0 ∧
    (stepDirSetup stepDirInitState).motorRunning = false ∧
    (stepDirSetup stepDirInitState).motorDirection = false ∧
    (stepDirSetup stepDirInitState).stepPeriodUs = 2000 ∧
    (stepDirSetup stepDirInitState).lastStepTime = 0 := by
  decide

/-- C8: in both sketches a command "speed <arg>" whose parsed integer is
outside 100..50000 is rejected with an error message and leaves the
state unchanged; a parsed integer within the range is stored exactly in
`stepPeriodUs`. -/
theorem claim_C8 : ∀ (arg : String) (s1 : SpiState) (s2 : StepDirState),
    (¬(100 ≤ toInt arg ∧ toInt arg ≤ 50000) →
      processCommandSpi s1 ("speed " ++ arg) =
        (s1, [SpiOut.print "ERROR: Speed must be between 100 and 50000"]) ∧
      processCommandStepDir s2 ("speed " ++ arg) =
        (s2, [StepDirOut.print "ERROR: Speed must be between 100 and 50000"])) ∧
    ((100 ≤ toInt arg ∧ toInt arg ≤ 50000) →
      (processCommandSpi s1 ("speed " ++ arg)).1 =
        { s1 with stepPeriodUs := (toInt arg).toNat } ∧
      (processCommandStepDir s2 ("speed " ++ arg)).1 =
        { s2 with stepPeriodUs := (toInt arg).toNat }) :=
  fun arg s1 s2 =>
    ⟨fun h => by
        rw [processCommandSpi_append_speed, processCommandStepDir_append_speed,
          if_neg h, if_neg h]
        exact ⟨rfl, rfl⟩,
     fun h => by
        rw [processCommandSpi_append_speed, processCommandStepDir_append_speed,
          if_pos h, if_pos h]
        exact ⟨rfl, rfl⟩⟩

theorem claim_C8_witness :
    processCommandSpi spiInitState ("speed " ++ "abc") =
      (spiInitState, [SpiOut.print "ERROR: Speed must be between 100 and 50000"]) ∧
    (processCommandSpi spiInitState ("speed " ++ "1500")).1 =
      { spiInitState with stepPeriodUs := 1500 } ∧
    processCommandStepDir (stepDirSetup stepDirInitState) ("speed " ++ "99999") =
      (stepDirSetup stepDirInitState,
        [StepDirOut.print "ERROR: Speed must be between 100 and 50000"]) :=
  ⟨((claim_C8 "abc" spiInitState (stepDirSetup stepDirInitState)).1 (by decide)).1,
   ((claim_C8 "1500" spiInitState (stepDirSetup stepDirInitState)).2 (by decide)).1,
   ((claim_C8 "99999" spiInitState (stepDirSetup stepDirInitState)).1 (by decide)).2⟩

/-- C9: the behaviour of a loop iteration on an input line depends only
on the line after trimming and lowercasing: two lines with the same
normalisation produce identical results in both sketches. -/
theorem claim_C9 : ∀ (l1 l2 : String), normalizeLine l1 = normalizeLine l2 →
    (∀ (t : Nat) (s : SpiState), spiLoopIter (some l1) t s = spiLoopIter (some l2) t s) ∧
    (∀ (t : Nat) (s : StepDirState),
      stepDirLoopIter (some l1) t s = stepDirLoopIter (some l2) t s) := by
  intro l1 l2 h
  constructor <;> intro t s <;>
    simp [spiLoopIter, stepDirLoopIter, spiCommandPhase, stepDirCommandPhase, h]

theorem claim_C9_witness :
    normalizeLine " START " = normalizeLine "start" ∧
    spiLoopIter (some " START ") 3000 spiInitState =
      spiLoopIter (some "start") 3000 spiInitState ∧
    stepDirLoopIter (some " START ") 3000 (stepDirSetup stepDirInitState) =
      stepDirLoopIter (some "start") 3000 (stepDirSetup stepDirInitState) :=
  ⟨by decide,
   (claim_C9 " START " "start" (by decide)).1 3000 spiInitState,
   (claim_C9 " START " "start" (by decide)).2 3000 (stepDirSetup stepDirInitState)⟩

/-- C10: in the STEP/DIR sketch, "disable" drives the ENABLE pin to its
disabled level (LOW) and stops the motor, while "enable" drives the
ENABLE pin to its enabled level (HIGH) and leaves `motorRunning`,
`motorDirection` and `stepPeriodUs` (and everything else) unchanged. -/
theorem claim_C10 : ∀ (s : StepDirState),
    (processCommandStepDir s "disable").1 =
      { s with enablePin := false, motorRunning := false } ∧
    (processCommandStepDir s "enable").1 = { s with enablePin := true } :=
  fun s => ⟨rfl, rfl⟩
